import Mathlib

/-
Verification development for the cerb challenge-proxy subsystem.

The authoritative sources are `scripts/generate-nginx-blocks.sh` (the nginx
server-block generator driven by container lifecycle events) and the
terminal WebSocket client component.  Shell text processing is modelled
over `List Char`; the `sed -e "s/pat/repl/g"` substitutions of
`generate_for_container` are modelled by `replaceAll`, a left-to-right,
non-overlapping, non-rescanning global replacement, which is exactly the
behaviour of `sed` for a fixed newline-free pattern and a replacement
without sed metacharacters.  File-system state (sites-available /
sites-enabled) is modelled as association lists from path to content,
where writing a path overwrites any previous entry, as `>` redirection and
`ln -sf` do.
-/

set_option maxRecDepth 10000
set_option linter.unusedVariables false

namespace Cerb

/-- One scanning phase of global replacement, with explicit fuel so that
the function is structurally recursive (one unit of fuel per scanned
position).  `replaceAllF pat repl fuel s` scans `s` left to right; whenever
`pat` is a prefix of the remaining text it emits `repl` and continues after
the matched text (never rescanning `repl`), otherwise it copies one
character. -/
def replaceAllF (pat repl : List Char) : Nat → List Char → List Char
  | 0, s => s
  | _ + 1, [] => []
  | fuel + 1, c :: rest =>
    if pat.isPrefixOf (c :: rest) then
      repl ++ replaceAllF pat repl fuel (rest.drop (pat.length - 1))
    else
      c :: replaceAllF pat repl fuel rest

/-- Global replacement of `pat` by `repl` in `s`: the model of
`sed "s/pat/repl/g"` for a fixed pattern.  One unit of fuel per consumed
position always suffices because every step consumes at least one
character. -/
def replaceAll (pat repl s : List Char) : List Char :=
  replaceAllF pat repl s.length s

/-- `Blocked pat chunk` says that no occurrence of `pat` can start inside
`chunk`, whatever text follows `chunk`: at every start position strictly
inside the chunk there is a mismatch already within the chunk. -/
def Blocked (pat chunk : List Char) : Prop :=
  ∀ i, i < chunk.length → ¬ pat <+: chunk.drop i ∧ ¬ chunk.drop i <+: pat

/-- Boolean check implying `Blocked`, evaluated by `decide` on concrete
chunks. -/
def blockedB (pat chunk : List Char) : Bool :=
  (List.range chunk.length).all fun i =>
    !(pat.isPrefixOf (chunk.drop i)) && !((chunk.drop i).isPrefixOf pat)

/-! ### The template

The six placeholders substituted by `generate_for_container` (script lines
81–86), in `sed -e` order: hostname, container_ip, container_port,
challenge_name, timestamp, container_id. -/

def PH_host : String := "{hostname}"

def PH_ip : String := "{container_ip}"

def PH_port : String := "{container_port}"

def PH_name : String := "{challenge_name}"

def PH_ts : String := "{timestamp}"

def PH_cid : String := "{container_id}"

/-! Literal pieces of the template written by `create_template` (script
lines 26–67), transcribed byte for byte from the quoted heredoc in source
order, split at the placeholder occurrences and at the boundaries named by
the external-interface contract.  Literal braces of the nginx syntax are
written `\x7b`/`\x7d`; the `\n` of `"healthy\n"` is the two-character
sequence backslash–n exactly as in the quoted heredoc. -/

def p01 : String := "# Challenge Instance: "

def p02 : String := "\n# Generated: "

def p03a : String := "\n"

def p03b : String := "# Container: "

def p04 : String := "\n\nserver \x7b\n    listen 80;\n    server_name "

def p05 : String := ";\n\n    # Challenge instance proxy\n    "

def p06 : String := "location / \x7b\n        proxy_pass http://"

def p07 : String := ":"

def p08a : String := "/;"

def p08b : String := "\n        proxy_http_version 1.1;\n        "

def p09 : String := "proxy_set_header Upgrade $http_upgrade;\n        proxy_set_header Connection \"upgrade\";"

def p10 : String := "\n        proxy_set_header Host $host;\n        proxy_set_header X-Real-IP $remote_addr;\n        proxy_set_header X-Forwarded-For $proxy_add_x_forwarded_for;\n        proxy_set_header X-Forwarded-Proto $scheme;\n        \n        # Timeouts for long-running challenges\n        proxy_connect_timeout 60s;\n        proxy_send_timeout 60s;\n        proxy_read_timeout 60s;\n        \n        # WebSocket support\n        proxy_read_timeout 3600s;\n        proxy_send_timeout 3600s;\n    \x7d\n\n    # Health check endpoint\n    "

def p11 : String := "location /health \x7b\n        access_log off;\n        return 200 \"healthy\\n\";"

def p12 : String := "\n        add_header Content-Type text/plain;\n    \x7d\n\n    # Logging\n    "

def p13 : String := "access_log /var/log/nginx/challenges/"

def p14a : String := "_access.log;"

def p14b : String := "\n    "

def p15 : String := "error_log /var/log/nginx/challenges/"

def p16a : String := "_error.log;"

def p16b : String := "\n\x7d\n"

/-- The fixed template text of `create_template`: the pieces above joined
with the placeholders at the positions they occupy in the heredoc
(reading the right-hand side left to right reproduces the heredoc byte
for byte). -/
def templateText : String :=
  p01 ++ PH_name ++ p02 ++ PH_ts ++ p03a ++ p03b ++ PH_cid ++ p04 ++
  PH_host ++ p05 ++ p06 ++ PH_ip ++ p07 ++ PH_port ++ p08a ++ p08b ++
  p09 ++ p10 ++ p11 ++ p12 ++ p13 ++ PH_host ++ p14a ++ p14b ++ p15 ++
  PH_host ++ p16a ++ p16b

/-! ### The renderer -/

/-- The six `sed` substitutions of `generate_for_container` (script lines
81–87) applied to the template, in `-e` order: the first `-e` script
(hostname) is applied first. -/
def renderConfig (hostname ip port name ts cid12 : List Char) : List Char :=
  replaceAll PH_cid.data cid12
    (replaceAll PH_ts.data ts
      (replaceAll PH_name.data name
        (replaceAll PH_port.data port
          (replaceAll PH_ip.data ip
            (replaceAll PH_host.data hostname templateText.data)))))

/-! Intermediate shapes of the text after each substitution phase, used to
state the phase lemmas below. -/

def stage1 (h : List Char) : List Char :=
  p01.data ++ (PH_name.data ++ (p02.data ++ (PH_ts.data ++ (p03a.data ++
  (p03b.data ++ (PH_cid.data ++ (p04.data ++ (h ++ (p05.data ++
  (p06.data ++ (PH_ip.data ++ (p07.data ++ (PH_port.data ++ (p08a.data ++
  (p08b.data ++ (p09.data ++ (p10.data ++ (p11.data ++ (p12.data ++
  (p13.data ++ (h ++ (p14a.data ++ (p14b.data ++ (p15.data ++
  (h ++ (p16a.data ++ p16b.data))))))))))))))))))))))))))

def stage2 (h ip : List Char) : List Char :=
  p01.data ++ (PH_name.data ++ (p02.data ++ (PH_ts.data ++ (p03a.data ++
  (p03b.data ++ (PH_cid.data ++ (p04.data ++ (h ++ (p05.data ++
  (p06.data ++ (ip ++ (p07.data ++ (PH_port.data ++ (p08a.data ++
  (p08b.data ++ (p09.data ++ (p10.data ++ (p11.data ++ (p12.data ++
  (p13.data ++ (h ++ (p14a.data ++ (p14b.data ++ (p15.data ++
  (h ++ (p16a.data ++ p16b.data))))))))))))))))))))))))))

def stage3 (h ip port : List Char) : List Char :=
  p01.data ++ (PH_name.data ++ (p02.data ++ (PH_ts.data ++ (p03a.data ++
  (p03b.data ++ (PH_cid.data ++ (p04.data ++ (h ++ (p05.data ++
  (p06.data ++ (ip ++ (p07.data ++ (port ++ (p08a.data ++
  (p08b.data ++ (p09.data ++ (p10.data ++ (p11.data ++ (p12.data ++
  (p13.data ++ (h ++ (p14a.data ++ (p14b.data ++ (p15.data ++
  (h ++ (p16a.data ++ p16b.data))))))))))))))))))))))))))

def stage4 (h ip port name : List Char) : List Char :=
  p01.data ++ (name ++ (p02.data ++ (PH_ts.data ++ (p03a.data ++
  (p03b.data ++ (PH_cid.data ++ (p04.data ++ (h ++ (p05.data ++
  (p06.data ++ (ip ++ (p07.data ++ (port ++ (p08a.data ++
  (p08b.data ++ (p09.data ++ (p10.data ++ (p11.data ++ (p12.data ++
  (p13.data ++ (h ++ (p14a.data ++ (p14b.data ++ (p15.data ++
  (h ++ (p16a.data ++ p16b.data))))))))))))))))))))))))))

def stage5 (h ip port name ts : List Char) : List Char :=
  p01.data ++ (name ++ (p02.data ++ (ts ++ (p03a.data ++
  (p03b.data ++ (PH_cid.data ++ (p04.data ++ (h ++ (p05.data ++
  (p06.data ++ (ip ++ (p07.data ++ (port ++ (p08a.data ++
  (p08b.data ++ (p09.data ++ (p10.data ++ (p11.data ++ (p12.data ++
  (p13.data ++ (h ++ (p14a.data ++ (p14b.data ++ (p15.data ++
  (h ++ (p16a.data ++ p16b.data))))))))))))))))))))))))))

def renderedShape (h ip port name ts cid12 : List Char) : List Char :=
  p01.data ++ (name ++ (p02.data ++ (ts ++ (p03a.data ++
  (p03b.data ++ (cid12 ++ (p04.data ++ (h ++ (p05.data ++
  (p06.data ++ (ip ++ (p07.data ++ (port ++ (p08a.data ++
  (p08b.data ++ (p09.data ++ (p10.data ++ (p11.data ++ (p12.data ++
  (p13.data ++ (h ++ (p14a.data ++ (p14b.data ++ (p15.data ++
  (h ++ (p16a.data ++ p16b.data))))))))))))))))))))))))))

/-! ### The generator state model -/

/-- Hostname derivation of `generate_for_container` (script line 75):
`hostname="${challenge_name}.challenges.ctf.com"`. -/
def derivedHostname (challenge_name : String) : String :=
  challenge_name ++ ".challenges.ctf.com"

/-- Modelled from the spec (refinement comparison only): the hostname shape
the specification prescribes, `<challenge-slug>-<owner-slug>.challenges.<domain>`. -/
def specHostname (challengeSlug ownerSlug domain : String) : String :=
  challengeSlug ++ "-" ++ ownerSlug ++ ".challenges." ++ domain

/-- The configuration text rendered for one container: the template with
the derived hostname, the container address, the challenge name, the
timestamp taken at invocation time (`date -Iseconds`, an explicit input of
the model), and the container id truncated to its first 12 characters
(`${container_id:0:12}`). -/
def generateConfigText (container_id container_ip container_port challenge_name ts : String) :
    List Char :=
  renderConfig (derivedHostname challenge_name).data container_ip.data container_port.data
    challenge_name.data ts.data (container_id.data.take 12)

def NGINX_SITES_AVAILABLE : String := "/etc/nginx/sites-available"

def NGINX_SITES_ENABLED : String := "/etc/nginx/sites-enabled"

def TEMPLATE_FILE : String := "/etc/nginx/templates/challenge.conf.template"

def LOG_DIR : String := "/var/log/nginx/challenges"

def availPath (hostname : String) : String :=
  NGINX_SITES_AVAILABLE ++ "/" ++ hostname ++ ".conf"

def enabledPath (hostname : String) : String :=
  NGINX_SITES_ENABLED ++ "/" ++ hostname ++ ".conf"

/-- On-disk proxy state: the sites-available directory (path ↦ file
content) and the sites-enabled directory (link path ↦ link target). -/
structure NginxState where
  sitesAvailable : List (String × List Char)
  sitesEnabled : List (String × String)
deriving DecidableEq

/-- Write a path, overwriting any previous entry (`>` redirection /
`ln -sf`). -/
def fsWrite {α : Type} (k : String) (v : α) (l : List (String × α)) : List (String × α) :=
  (k, v) :: l.filter (fun e => e.1 != k)

/-- Remove a path if present (`rm -f`). -/
def fsRemove {α : Type} (k : String) (l : List (String × α)) : List (String × α) :=
  l.filter (fun e => e.1 != k)

/-- `generate_for_container` (script lines 70–93): render the template into
`sites-available/<hostname>.conf` and force-link it from
`sites-enabled/<hostname>.conf`, unconditionally.  The script performs no
lookup of existing state and has no failure path. -/
def generate_for_container (container_id container_ip container_port challenge_name ts : String)
    (s : NginxState) : NginxState :=
  { sitesAvailable :=
      fsWrite (availPath (derivedHostname challenge_name))
        (generateConfigText container_id container_ip container_port challenge_name ts)
        s.sitesAvailable
    sitesEnabled :=
      fsWrite (enabledPath (derivedHostname challenge_name))
        (availPath (derivedHostname challenge_name)) s.sitesEnabled }

/-- `remove_for_hostname` (script lines 95–103): `rm -f` of both paths. -/
def remove_for_hostname (hostname : String) (s : NginxState) : NginxState :=
  { sitesAvailable := fsRemove (availPath hostname) s.sitesAvailable
    sitesEnabled := fsRemove (enabledPath hostname) s.sitesEnabled }

/-- `reload_nginx` (script lines 105–108): `nginx -t && systemctl reload
nginx; echo "Nginx reloaded"`.  The reload is applied only when the
validation succeeds (`nginxValid`, the outcome of `nginx -t`, is an input
of the model), but the function's own status is that of the trailing
`echo`, hence always 0.  Returns (reload applied?, status). -/
def reload_nginx (nginxValid : Bool) : Bool × Nat :=
  (nginxValid, 0)

/-- Result of one script invocation: final state, whether the proxy reload
was applied, and the script's exit code. -/
structure CmdResult where
  state : NginxState
  reloaded : Bool
  exitCode : Nat
deriving DecidableEq

/-- The `generate` command branch (script lines 178–182):
`generate_for_container "$@"; reload_nginx`.  The script has no `set -e`;
its exit status is the status of `reload_nginx`, i.e. of the trailing
`echo`, hence 0 regardless of validation. -/
def runGenerateCmd (nginxValid : Bool)
    (container_id container_ip container_port challenge_name ts : String)
    (s : NginxState) : CmdResult :=
  { state := generate_for_container container_id container_ip container_port challenge_name ts s
    reloaded := (reload_nginx nginxValid).1
    exitCode := (reload_nginx nginxValid).2 }

/-- The `remove` command branch (script lines 183–187). -/
def runRemoveCmd (nginxValid : Bool) (hostname : String) (s : NginxState) : CmdResult :=
  { state := remove_for_hostname hostname s
    reloaded := (reload_nginx nginxValid).1
    exitCode := (reload_nginx nginxValid).2 }

/-- `get_container_info` (script lines 135–141): a stub that echoes the
empty string — the orchestrator integration is a comment only. -/
def get_container_info (container_id : String) : String := ""

/-- `get_hostname_from_container` (script lines 143–147): also a stub
echoing the empty string. -/
def get_hostname_from_container (container_id : String) : String := ""

/-- `handle_container_event` (script lines 111–132).  Returns the new state
and the number of `reload_nginx` calls made.  On `start`/`create` the
container info is fetched and, when non-empty, passed unquoted to
`generate_for_container` (so it is word-split on whitespace); on
`stop`/`die` the stored hostname is fetched and, when non-empty, removed.
`ts` is the `date -Iseconds` clock value used if a config is generated. -/
def handle_container_event (action container_id ts : String) (s : NginxState) :
    NginxState × Nat :=
  if action = "start" ∨ action = "create" then
    (if get_container_info container_id ≠ "" then
      (let words := (get_container_info container_id).splitOn " "
       (generate_for_container (words.getD 0 "") (words.getD 1 "") (words.getD 2 "")
         (words.getD 3 "") ts s, 1))
     else (s, 0))
  else if action = "stop" ∨ action = "die" then
    (if get_hostname_from_container container_id ≠ "" then
      (remove_for_hostname (get_hostname_from_container container_id) s, 1)
     else (s, 0))
  else (s, 0)

/-- `sync_all_containers` (script lines 159–170): the whole reconciliation
body — the `docker ps` listing, the per-container `generate_for_container`
loop and the final `reload_nginx` — is commented out; the function only
echoes two messages and its status is that of the last `echo`, hence 0.
`runningContainers` models the runtime's list of labeled running
containers (id, ip, port, name), which the code never consults.  Returns
the (unchanged) state and the exit status. -/
def sync_all_containers (runningContainers : List (String × String × String × String))
    (s : NginxState) : NginxState × Nat :=
  (s, 0)

/-! ### Script entry: effect traces -/

inductive ScriptCmd
  | generate (container_id container_ip container_port challenge_name : String)
  | remove (hostname : String)
  | watch
  | sync
  | init
  | unknown (arg : String)
deriving DecidableEq

inductive Effect
  | mkdirP (path : String)
  | writeFile (path content : String)
  | symlink (target linkPath : String)
  | removeFile (path : String)
  | nginxTestAndReload
  | output (msg : String)
deriving DecidableEq

/-- `ensure_directories` (script lines 18–23): four `mkdir -p` calls, the
last on `$(dirname "$TEMPLATE_FILE")`. -/
def ensure_directories_trace : List Effect :=
  [Effect.mkdirP NGINX_SITES_AVAILABLE, Effect.mkdirP NGINX_SITES_ENABLED,
   Effect.mkdirP LOG_DIR, Effect.mkdirP "/etc/nginx/templates"]

/-- `create_template` (script lines 25–68): one heredoc write, overwriting
the template at its canonical path. -/
def create_template_trace : List Effect :=
  [Effect.writeFile TEMPLATE_FILE templateText]

/-- Effects of the `case "${1:-help}"` dispatch (script lines 177–209), per
command.  `watch` blocks consuming the docker event stream, producing no
immediate effects; the `unknown` branch prints usage (further usage echo
lines elided) and exits 1. -/
def dispatch_trace (ts : String) : ScriptCmd → List Effect
  | ScriptCmd.generate cid ip port name =>
    [Effect.writeFile (availPath (derivedHostname name))
       (String.mk (generateConfigText cid ip port name ts)),
     Effect.symlink (availPath (derivedHostname name)) (enabledPath (derivedHostname name)),
     Effect.output ("Generated: " ++ derivedHostname name ++ " -> " ++ ip ++ ":" ++ port),
     Effect.nginxTestAndReload,
     Effect.output "Nginx reloaded"]
  | ScriptCmd.remove hostname =>
    [Effect.removeFile (availPath hostname),
     Effect.removeFile (enabledPath hostname),
     Effect.output ("Removed: " ++ hostname),
     Effect.nginxTestAndReload,
     Effect.output "Nginx reloaded"]
  | ScriptCmd.watch => []
  | ScriptCmd.sync =>
    [Effect.output "Syncing all challenge containers...", Effect.output "Sync complete"]
  | ScriptCmd.init =>
    [Effect.writeFile TEMPLATE_FILE templateText,
     Effect.output ("Template created at " ++ TEMPLATE_FILE)]
  | ScriptCmd.unknown _ =>
    [Effect.output "Usage: \x7bgenerate|remove|watch|sync|init\x7d"]

/-- The script's top level (lines 172–209): `ensure_directories` and
`create_template` run unconditionally, then the command is dispatched. -/
def main_trace (ts : String) (cmd : ScriptCmd) : List Effect :=
  ensure_directories_trace ++ (create_template_trace ++ dispatch_trace ts cmd)

/-! ### Terminal WebSocket client model

From the terminal component's `connectWebSocket` (part_000 lines
513–591).  A WebSocket `send` of a JavaScript string produces a text
frame; a `send` of binary data produces a binary frame.  `JSON.parse` of
the browser is an external dependency, passed as the `parse` argument of
the message handler. -/

inductive Frame
  | text (s : String)
  | binary (bytes : List Nat)
deriving DecidableEq

structure ControlMsg where
  type : String
  message : String
deriving DecidableEq

inductive ClientAction
  | writeBytes (bytes : List Nat)
  | writeError (message : String)
  | writeRaw (s : String)
  | noop
deriving DecidableEq

/-- `JSON.stringify({type:"resize",cols,rows})` as built by the resize
senders (part_000 lines 494–500 and 540–546). -/
def resizeMessage (cols rows : Nat) : String :=
  "\x7b\"type\":\"resize\",\"cols\":" ++ toString cols ++ ",\"rows\":" ++ toString rows ++ "\x7d"

/-- The initial/resize control send: a text frame carrying the JSON
message. -/
def sendResize (cols rows : Nat) : Frame :=
  Frame.text (resizeMessage cols rows)

/-- The `onData` keystroke handler (part_000 lines 586–590):
`if (ws.readyState === WebSocket.OPEN) ws.send(data)` where `data` is the
string delivered by the terminal — a text frame, sent only while the
socket is open. -/
def sendTerminalInput (readyOpen : Bool) (data : String) : Option Frame :=
  if readyOpen then some (Frame.text data) else none

/-- The `onmessage` handler (part_000 lines 549–570): binary frames are
written to the terminal as raw container output; text frames are
`JSON.parse`d — a message with `type === "error"` is displayed as an
error, any other parsed message is ignored, and unparseable text is
written verbatim. -/
def handleServerFrame (parse : String → Option ControlMsg) : Frame → ClientAction
  | Frame.binary bytes => ClientAction.writeBytes bytes
  | Frame.text s =>
    match parse s with
    | some m => if m.type = "error" then ClientAction.writeError m.message else ClientAction.noop
    | none => ClientAction.writeRaw s

end Cerb

namespace Cerb

/-! ### Machinery lemmas for `replaceAll` -/

theorem replaceAllF_fuel_eq (pat repl : List Char) :
    ∀ f₁ f₂ s, s.length ≤ f₁ → s.length ≤ f₂ →
      replaceAllF pat repl f₁ s = replaceAllF pat repl f₂ s := by
  intro f₁
  induction f₁ with
  | zero =>
    intro f₂ s h1 _
    have hs : s = [] := List.eq_nil_of_length_eq_zero (Nat.le_zero.mp h1)
    subst hs
    cases f₂ <;> rfl
  | succ g ih =>
    intro f₂ s h1 h2
    cases s with
    | nil => cases f₂ <;> rfl
    | cons c rest =>
      cases f₂ with
      | zero => exact absurd h2 (by simp)
      | succ g₂ =>
        have hr1 : rest.length ≤ g := Nat.succ_le_succ_iff.mp (by simpa using h1)
        have hr2 : rest.length ≤ g₂ := Nat.succ_le_succ_iff.mp (by simpa using h2)
        have hd : (rest.drop (pat.length - 1)).length ≤ rest.length := by
          simp [List.length_drop]
        simp only [replaceAllF]
        by_cases hp : pat.isPrefixOf (c :: rest)
        · simp only [hp, if_true]
          exact congrArg (repl ++ ·) (ih g₂ _ (le_trans hd hr1) (le_trans hd hr2))
        · simp only [hp, if_false]
          exact congrArg (c :: ·) (ih g₂ rest hr1 hr2)

theorem replaceAll_cons_neg (pat repl : List Char) (c : Char) (t : List Char)
    (h : ¬ pat <+: c :: t) :
    replaceAll pat repl (c :: t) = c :: replaceAll pat repl t := by
  have hb : pat.isPrefixOf (c :: t) = false := by
    rw [Bool.eq_false_iff]
    intro hb
    exact h ( List.isPrefixOf_iff_prefix.mp hb)
  simp [replaceAll, replaceAllF, hb]

theorem replaceAll_head_match (pat repl : List Char) (hne : pat ≠ []) (t : List Char) :
    replaceAll pat repl (pat ++ t) = repl ++ replaceAll pat repl t := by
  cases pat with
  | nil => exact absurd rfl hne
  | cons p ps =>
    have hb : (p :: ps).isPrefixOf (p :: (ps ++ t)) = true := by
      rw [ List.isPrefixOf_iff_prefix]
      rw [← List.cons_append]
      exact List.prefix_append _ _
    have e1 : replaceAll (p :: ps) repl ((p :: ps) ++ t) =
        replaceAllF (p :: ps) repl ((ps ++ t).length + 1) (p :: (ps ++ t)) := by
      simp [replaceAll]
    rw [e1]
    simp only [replaceAllF, hb, if_true]
    have hlen : (p :: ps).length - 1 = ps.length := by simp
    rw [hlen, List.drop_left]
    rw [replaceAllF_fuel_eq (p :: ps) repl (ps ++ t).length t.length t
      (by simp) (le_refl _)]
    rfl

theorem blocked_of_blockedB (pat chunk : List Char) (h : blockedB pat chunk = true) :
    Blocked pat chunk := by
  intro i hi
  have hall := List.all_eq_true.mp h i (List.mem_range.mpr hi)
  simp only [Bool.and_eq_true, Bool.not_eq_true'] at hall
  constructor
  · intro hp
    have : pat.isPrefixOf (chunk.drop i) = true := List.isPrefixOf_iff_prefix.mpr hp
    rw [this] at hall
    exact absurd hall.1 (by simp)
  · intro hp
    have : (chunk.drop i).isPrefixOf pat = true := List.isPrefixOf_iff_prefix.mpr hp
    rw [this] at hall
    exact absurd hall.2 (by simp)

theorem replaceAll_skip_chunk (pat repl : List Char) :
    ∀ chunk, Blocked pat chunk →
      ∀ t, replaceAll pat repl (chunk ++ t) = chunk ++ replaceAll pat repl t := by
  intro chunk
  induction chunk with
  | nil => intro _ t; simp
  | cons c cs ih =>
    intro hB t
    have h0 := hB 0 (by simp)
    simp only [List.drop_zero] at h0
    have hnp : ¬ pat <+: (c :: cs) ++ t := by
      intro hp
      rcases List.prefix_or_prefix_of_prefix hp (List.prefix_append (c :: cs) t) with h | h
      · exact h0.1 h
      · exact h0.2 h
    have hBcs : Blocked pat cs := by
      intro i hi
      have := hB (i + 1) (by simpa using Nat.succ_lt_succ hi)
      simpa using this
    rw [List.cons_append, replaceAll_cons_neg pat repl c (cs ++ t) (by rw [← List.cons_append]; exact hnp),
      ih hBcs t, List.cons_append]

theorem replaceAll_skip_free (pat repl : List Char) (hp : pat.head? = some '{') :
    ∀ v, '{' ∉ v →
      ∀ t, replaceAll pat repl (v ++ t) = v ++ replaceAll pat repl t := by
  intro v
  induction v with
  | nil => intro _ t; simp
  | cons c cs ih =>
    intro hv t
    have hc : c ≠ '{' := fun hcc => hv (by simp [hcc])
    have hnp : ¬ pat <+: c :: (cs ++ t) := by
      intro hpre
      cases pat with
      | nil => simp at hp
      | cons q qs =>
        have hq : q = '{' := by simpa using hp
        have hqc : q = c := ( List.cons_prefix_cons.mp hpre).1
        exact hc (hqc.symm.trans hq)
    have hcs : '{' ∉ cs := fun hm => hv (List.mem_cons_of_mem _ hm)
    rw [List.cons_append, replaceAll_cons_neg pat repl c (cs ++ t) hnp, ih hcs t,
      List.cons_append]

/-- Skip a concrete blocked piece (side condition dischargeable by
`decide`). -/
theorem skipPiece (pat repl : List Char) (C : String) (hC : blockedB pat C.data = true)
    (t : List Char) :
    replaceAll pat repl (C.data ++ t) = C.data ++ replaceAll pat repl t :=
  replaceAll_skip_chunk pat repl C.data (blocked_of_blockedB pat C.data hC) t

/-- A blocked piece standing alone is left unchanged. -/
theorem pieceId (pat repl : List Char) (C : String) (hC : blockedB pat C.data = true) :
    replaceAll pat repl C.data = C.data := by
  have := skipPiece pat repl C hC []
  simpa [replaceAll, replaceAllF] using this

/-- Skip a concrete piece containing no `'{'` at all (cheap side
conditions). -/
theorem skipClean (pat repl : List Char) (hp : pat.head? = some '{') (C : String)
    (hC : '{' ∉ C.data) (t : List Char) :
    replaceAll pat repl (C.data ++ t) = C.data ++ replaceAll pat repl t :=
  replaceAll_skip_free pat repl hp C.data hC t

/-- A brace-free piece standing alone is left unchanged. -/
theorem pieceIdClean (pat repl : List Char) (hp : pat.head? = some '{') (C : String)
    (hC : '{' ∉ C.data) :
    replaceAll pat repl C.data = C.data := by
  have := skipClean pat repl hp C hC []
  simpa [replaceAll, replaceAllF] using this

/-! ### The template, decomposed, and the six substitution phases -/

theorem templateText_decomp :
    templateText.data =
      p01.data ++ (PH_name.data ++ (p02.data ++ (PH_ts.data ++ (p03a.data ++
      (p03b.data ++ (PH_cid.data ++ (p04.data ++ (PH_host.data ++ (p05.data ++
      (p06.data ++ (PH_ip.data ++ (p07.data ++ (PH_port.data ++ (p08a.data ++
      (p08b.data ++ (p09.data ++ (p10.data ++ (p11.data ++ (p12.data ++
      (p13.data ++ (PH_host.data ++ (p14a.data ++ (p14b.data ++ (p15.data ++
      (PH_host.data ++ (p16a.data ++ p16b.data)))))))))))))))))))))))))) := by
  simp only [templateText, String.data_append, List.append_assoc]

theorem phase1 (h : List Char) :
    replaceAll PH_host.data h templateText.data = stage1 h := by
  rw [templateText_decomp]
  simp only [stage1]
  rw [skipClean PH_host.data h (by decide) p01 (by decide),
    skipPiece PH_host.data h PH_name (by decide),
    skipClean PH_host.data h (by decide) p02 (by decide),
    skipPiece PH_host.data h PH_ts (by decide),
    skipClean PH_host.data h (by decide) p03a (by decide),
    skipClean PH_host.data h (by decide) p03b (by decide),
    skipPiece PH_host.data h PH_cid (by decide),
    skipPiece PH_host.data h p04 (by decide),
    replaceAll_head_match PH_host.data h (by decide),
    skipClean PH_host.data h (by decide) p05 (by decide),
    skipPiece PH_host.data h p06 (by decide),
    skipPiece PH_host.data h PH_ip (by decide),
    skipClean PH_host.data h (by decide) p07 (by decide),
    skipPiece PH_host.data h PH_port (by decide),
    skipClean PH_host.data h (by decide) p08a (by decide),
    skipClean PH_host.data h (by decide) p08b (by decide),
    skipClean PH_host.data h (by decide) p09 (by decide),
    skipClean PH_host.data h (by decide) p10 (by decide),
    skipPiece PH_host.data h p11 (by decide),
    skipClean PH_host.data h (by decide) p12 (by decide),
    skipClean PH_host.data h (by decide) p13 (by decide),
    replaceAll_head_match PH_host.data h (by decide),
    skipClean PH_host.data h (by decide) p14a (by decide),
    skipClean PH_host.data h (by decide) p14b (by decide),
    skipClean PH_host.data h (by decide) p15 (by decide),
    replaceAll_head_match PH_host.data h (by decide),
    skipClean PH_host.data h (by decide) p16a (by decide),
    pieceIdClean PH_host.data h (by decide) p16b (by decide)]

theorem phase2 (h ip : List Char) (hh : '{' ∉ h) :
    replaceAll PH_ip.data ip (stage1 h) = stage2 h ip := by
  simp only [stage1, stage2]
  rw [skipClean PH_ip.data ip (by decide) p01 (by decide),
    skipPiece PH_ip.data ip PH_name (by decide),
    skipClean PH_ip.data ip (by decide) p02 (by decide),
    skipPiece PH_ip.data ip PH_ts (by decide),
    skipClean PH_ip.data ip (by decide) p03a (by decide),
    skipClean PH_ip.data ip (by decide) p03b (by decide),
    skipPiece PH_ip.data ip PH_cid (by decide),
    skipPiece PH_ip.data ip p04 (by decide),
    replaceAll_skip_free PH_ip.data ip (by decide) h hh,
    skipClean PH_ip.data ip (by decide) p05 (by decide),
    skipPiece PH_ip.data ip p06 (by decide),
    replaceAll_head_match PH_ip.data ip (by decide),
    skipClean PH_ip.data ip (by decide) p07 (by decide),
    skipPiece PH_ip.data ip PH_port (by decide),
    skipClean PH_ip.data ip (by decide) p08a (by decide),
    skipClean PH_ip.data ip (by decide) p08b (by decide),
    skipClean PH_ip.data ip (by decide) p09 (by decide),
    skipClean PH_ip.data ip (by decide) p10 (by decide),
    skipPiece PH_ip.data ip p11 (by decide),
    skipClean PH_ip.data ip (by decide) p12 (by decide),
    skipClean PH_ip.data ip (by decide) p13 (by decide),
    replaceAll_skip_free PH_ip.data ip (by decide) h hh,
    skipClean PH_ip.data ip (by decide) p14a (by decide),
    skipClean PH_ip.data ip (by decide) p14b (by decide),
    skipClean PH_ip.data ip (by decide) p15 (by decide),
    replaceAll_skip_free PH_ip.data ip (by decide) h hh,
    skipClean PH_ip.data ip (by decide) p16a (by decide),
    pieceIdClean PH_ip.data ip (by decide) p16b (by decide)]

theorem phase3 (h ip port : List Char) (hh : '{' ∉ h) (hip : '{' ∉ ip) :
    replaceAll PH_port.data port (stage2 h ip) = stage3 h ip port := by
  simp only [stage2, stage3]
  rw [skipClean PH_port.data port (by decide) p01 (by decide),
    skipPiece PH_port.data port PH_name (by decide),
    skipClean PH_port.data port (by decide) p02 (by decide),
    skipPiece PH_port.data port PH_ts (by decide),
    skipClean PH_port.data port (by decide) p03a (by decide),
    skipClean PH_port.data port (by decide) p03b (by decide),
    skipPiece PH_port.data port PH_cid (by decide),
    skipPiece PH_port.data port p04 (by decide),
    replaceAll_skip_free PH_port.data port (by decide) h hh,
    skipClean PH_port.data port (by decide) p05 (by decide),
    skipPiece PH_port.data port p06 (by decide),
    replaceAll_skip_free PH_port.data port (by decide) ip hip,
    skipClean PH_port.data port (by decide) p07 (by decide),
    replaceAll_head_match PH_port.data port (by decide),
    skipClean PH_port.data port (by decide) p08a (by decide),
    skipClean PH_port.data port (by decide) p08b (by decide),
    skipClean PH_port.data port (by decide) p09 (by decide),
    skipClean PH_port.data port (by decide) p10 (by decide),
    skipPiece PH_port.data port p11 (by decide),
    skipClean PH_port.data port (by decide) p12 (by decide),
    skipClean PH_port.data port (by decide) p13 (by decide),
    replaceAll_skip_free PH_port.data port (by decide) h hh,
    skipClean PH_port.data port (by decide) p14a (by decide),
    skipClean PH_port.data port (by decide) p14b (by decide),
    skipClean PH_port.data port (by decide) p15 (by decide),
    replaceAll_skip_free PH_port.data port (by decide) h hh,
    skipClean PH_port.data port (by decide) p16a (by decide),
    pieceIdClean PH_port.data port (by decide) p16b (by decide)]

theorem phase4 (h ip port name : List Char) (hh : '{' ∉ h) (hip : '{' ∉ ip)
    (hport : '{' ∉ port) :
    replaceAll PH_name.data name (stage3 h ip port) = stage4 h ip port name := by
  simp only [stage3, stage4]
  rw [skipClean PH_name.data name (by decide) p01 (by decide),
    replaceAll_head_match PH_name.data name (by decide),
    skipClean PH_name.data name (by decide) p02 (by decide),
    skipPiece PH_name.data name PH_ts (by decide),
    skipClean PH_name.data name (by decide) p03a (by decide),
    skipClean PH_name.data name (by decide) p03b (by decide),
    skipPiece PH_name.data name PH_cid (by decide),
    skipPiece PH_name.data name p04 (by decide),
    replaceAll_skip_free PH_name.data name (by decide) h hh,
    skipClean PH_name.data name (by decide) p05 (by decide),
    skipPiece PH_name.data name p06 (by decide),
    replaceAll_skip_free PH_name.data name (by decide) ip hip,
    skipClean PH_name.data name (by decide) p07 (by decide),
    replaceAll_skip_free PH_name.data name (by decide) port hport,
    skipClean PH_name.data name (by decide) p08a (by decide),
    skipClean PH_name.data name (by decide) p08b (by decide),
    skipClean PH_name.data name (by decide) p09 (by decide),
    skipClean PH_name.data name (by decide) p10 (by decide),
    skipPiece PH_name.data name p11 (by decide),
    skipClean PH_name.data name (by decide) p12 (by decide),
    skipClean PH_name.data name (by decide) p13 (by decide),
    replaceAll_skip_free PH_name.data name (by decide) h hh,
    skipClean PH_name.data name (by decide) p14a (by decide),
    skipClean PH_name.data name (by decide) p14b (by decide),
    skipClean PH_name.data name (by decide) p15 (by decide),
    replaceAll_skip_free PH_name.data name (by decide) h hh,
    skipClean PH_name.data name (by decide) p16a (by decide),
    pieceIdClean PH_name.data name (by decide) p16b (by decide)]

theorem phase5 (h ip port name ts : List Char) (hh : '{' ∉ h) (hip : '{' ∉ ip)
    (hport : '{' ∉ port) (hname : '{' ∉ name) :
    replaceAll PH_ts.data ts (stage4 h ip port name) = stage5 h ip port name ts := by
  simp only [stage4, stage5]
  rw [skipClean PH_ts.data ts (by decide) p01 (by decide),
    replaceAll_skip_free PH_ts.data ts (by decide) name hname,
    skipClean PH_ts.data ts (by decide) p02 (by decide),
    replaceAll_head_match PH_ts.data ts (by decide),
    skipClean PH_ts.data ts (by decide) p03a (by decide),
    skipClean PH_ts.data ts (by decide) p03b (by decide),
    skipPiece PH_ts.data ts PH_cid (by decide),
    skipPiece PH_ts.data ts p04 (by decide),
    replaceAll_skip_free PH_ts.data ts (by decide) h hh,
    skipClean PH_ts.data ts (by decide) p05 (by decide),
    skipPiece PH_ts.data ts p06 (by decide),
    replaceAll_skip_free PH_ts.data ts (by decide) ip hip,
    skipClean PH_ts.data ts (by decide) p07 (by decide),
    replaceAll_skip_free PH_ts.data ts (by decide) port hport,
    skipClean PH_ts.data ts (by decide) p08a (by decide),
    skipClean PH_ts.data ts (by decide) p08b (by decide),
    skipClean PH_ts.data ts (by decide) p09 (by decide),
    skipClean PH_ts.data ts (by decide) p10 (by decide),
    skipPiece PH_ts.data ts p11 (by decide),
    skipClean PH_ts.data ts (by decide) p12 (by decide),
    skipClean PH_ts.data ts (by decide) p13 (by decide),
    replaceAll_skip_free PH_ts.data ts (by decide) h hh,
    skipClean PH_ts.data ts (by decide) p14a (by decide),
    skipClean PH_ts.data ts (by decide) p14b (by decide),
    skipClean PH_ts.data ts (by decide) p15 (by decide),
    replaceAll_skip_free PH_ts.data ts (by decide) h hh,
    skipClean PH_ts.data ts (by decide) p16a (by decide),
    pieceIdClean PH_ts.data ts (by decide) p16b (by decide)]

theorem phase6 (h ip port name ts cid12 : List Char) (hh : '{' ∉ h) (hip : '{' ∉ ip)
    (hport : '{' ∉ port) (hname : '{' ∉ name) (hts : '{' ∉ ts) :
    replaceAll PH_cid.data cid12 (stage5 h ip port name ts) =
      renderedShape h ip port name ts cid12 := by
  simp only [stage5, renderedShape]
  rw [skipClean PH_cid.data cid12 (by decide) p01 (by decide),
    replaceAll_skip_free PH_cid.data cid12 (by decide) name hname,
    skipClean PH_cid.data cid12 (by decide) p02 (by decide),
    replaceAll_skip_free PH_cid.data cid12 (by decide) ts hts,
    skipClean PH_cid.data cid12 (by decide) p03a (by decide),
    skipClean PH_cid.data cid12 (by decide) p03b (by decide),
    replaceAll_head_match PH_cid.data cid12 (by decide),
    skipPiece PH_cid.data cid12 p04 (by decide),
    replaceAll_skip_free PH_cid.data cid12 (by decide) h hh,
    skipClean PH_cid.data cid12 (by decide) p05 (by decide),
    skipPiece PH_cid.data cid12 p06 (by decide),
    replaceAll_skip_free PH_cid.data cid12 (by decide) ip hip,
    skipClean PH_cid.data cid12 (by decide) p07 (by decide),
    replaceAll_skip_free PH_cid.data cid12 (by decide) port hport,
    skipClean PH_cid.data cid12 (by decide) p08a (by decide),
    skipClean PH_cid.data cid12 (by decide) p08b (by decide),
    skipClean PH_cid.data cid12 (by decide) p09 (by decide),
    skipClean PH_cid.data cid12 (by decide) p10 (by decide),
    skipPiece PH_cid.data cid12 p11 (by decide),
    skipClean PH_cid.data cid12 (by decide) p12 (by decide),
    skipClean PH_cid.data cid12 (by decide) p13 (by decide),
    replaceAll_skip_free PH_cid.data cid12 (by decide) h hh,
    skipClean PH_cid.data cid12 (by decide) p14a (by decide),
    skipClean PH_cid.data cid12 (by decide) p14b (by decide),
    skipClean PH_cid.data cid12 (by decide) p15 (by decide),
    replaceAll_skip_free PH_cid.data cid12 (by decide) h hh,
    skipClean PH_cid.data cid12 (by decide) p16a (by decide),
    pieceIdClean PH_cid.data cid12 (by decide) p16b (by decide)]

/-- The renderer, in closed form: for brace-free inputs the six `sed`
passes substitute each placeholder by its value, leaving the literal
template pieces intact. -/
theorem renderConfig_eq (h ip port name ts cid12 : List Char) (hh : '{' ∉ h)
    (hip : '{' ∉ ip) (hport : '{' ∉ port) (hname : '{' ∉ name) (hts : '{' ∉ ts) :
    renderConfig h ip port name ts cid12 = renderedShape h ip port name ts cid12 := by
  simp only [renderConfig]
  rw [phase1 h, phase2 h ip hh, phase3 h ip port hh hip, phase4 h ip port name hh hip hport,
    phase5 h ip port name ts hh hip hport hname,
    phase6 h ip port name ts cid12 hh hip hport hname hts]

/-! ### General helper lemmas -/

theorem infix_intro (pre post mid full : List Char) (h : full = pre ++ (mid ++ post)) :
    List.IsInfix mid full := by
  refine ⟨pre, post, ?_⟩
  rw [h]
  simp [List.append_assoc]

theorem lookup_filter_ne {α : Type} (k k' : String) (l : List (String × α)) (h : k' ≠ k) :
    List.lookup k' (l.filter (fun e => e.1 != k)) = List.lookup k' l := by
  induction l with
  | nil => rfl
  | cons a l ih =>
    cases a with
    | mk a1 a2 =>
      by_cases ha : a1 = k
      · have hfa : ((a1, a2).1 != k) = false := by simp [ha]
        have hk : (k' == a1) = false := beq_eq_false_iff_ne.mpr (by rw [ha]; exact h)
        rw [List.filter_cons, hfa]
        simp [List.lookup, hk, ih]
      · have hfa : ((a1, a2).1 != k) = true := by simp [ha]
        rw [List.filter_cons, hfa]
        simp [List.lookup, ih]

theorem lookup_fsWrite_self {α : Type} (k : String) (v : α) (l : List (String × α)) :
    List.lookup k (fsWrite k v l) = some v := by
  simp [fsWrite, List.lookup]

theorem lookup_fsWrite_ne {α : Type} (k k' : String) (v : α) (l : List (String × α))
    (h : k' ≠ k) :
    List.lookup k' (fsWrite k v l) = List.lookup k' l := by
  have hk : (k' == k) = false := beq_eq_false_iff_ne.mpr h
  simp only [fsWrite, List.lookup, hk]
  exact lookup_filter_ne k k' l h

theorem noBrace_derivedHostname (name : String) (h : '{' ∉ name.data) :
    '{' ∉ (derivedHostname name).data := by
  intro hm
  rw [derivedHostname, String.data_append] at hm
  rcases List.mem_append.mp hm with hc | hc
  · exact h hc
  · exact absurd hc (by decide)

theorem not_prefix_cons_of_head (pat : List Char) (hp : pat.head? = some '{') (c : Char)
    (hc : c ≠ '{') (t : List Char) : ¬ pat <+: c :: t := by
  intro hpre
  cases pat with
  | nil => simp at hp
  | cons q qs =>
    have hq : q = '{' := by simpa using hp
    have hqc : q = c := ( List.cons_prefix_cons.mp hpre).1
    exact hc (hqc.symm.trans hq)

theorem replaceAll_keeps_hash (pat repl : List Char) (hp : pat.head? = some '{')
    (x : List Char) (hx : ∃ r, x = '#' :: r) :
    ∃ r, replaceAll pat repl x = '#' :: r := by
  obtain ⟨r, rfl⟩ := hx
  exact ⟨replaceAll pat repl r,
    replaceAll_cons_neg pat repl '#' r (not_prefix_cons_of_head pat hp '#' (by decide) r)⟩

/-- Whatever the six input values are — template-breaking or not — the
renderer totally produces a configuration beginning with the template's
`#` comment header; `generate_for_container` has no rejection path. -/
theorem renderConfig_starts_hash (h ip port name ts cid12 : List Char) :
    ∃ r, renderConfig h ip port name ts cid12 = '#' :: r := by
  have h0 : ∃ r, templateText.data = '#' :: r := by
    rw [templateText_decomp]
    have hp01 : p01.data = '#' :: " Challenge Instance: ".data := by decide
    rw [hp01, List.cons_append]
    exact ⟨_, rfl⟩
  simp only [renderConfig]
  exact replaceAll_keeps_hash _ _ (by decide) _
    (replaceAll_keeps_hash _ _ (by decide) _
      (replaceAll_keeps_hash _ _ (by decide) _
        (replaceAll_keeps_hash _ _ (by decide) _
          (replaceAll_keeps_hash _ _ (by decide) _
            (replaceAll_keeps_hash _ _ (by decide) _ h0)))))

/-- Closed form of `generateConfigText` for brace-free inputs. -/
theorem generateConfigText_eq (cid ip port name ts : String) (hip : '{' ∉ ip.data)
    (hport : '{' ∉ port.data) (hname : '{' ∉ name.data) (hts : '{' ∉ ts.data) :
    generateConfigText cid ip port name ts =
      renderedShape (derivedHostname name).data ip.data port.data name.data ts.data
        (cid.data.take 12) := by
  simp only [generateConfigText]
  exact renderConfig_eq _ _ _ _ _ _ (noBrace_derivedHostname name hname) hip hport hname hts

/-- The rendered text determines the timestamp: for fixed brace-free
container inputs, two renderings coincide exactly when the `date -Iseconds`
strings stamped into the `# Generated:` header coincide. -/
theorem generateConfig_ts_eq_iff (cid ip port name ts₁ ts₂ : String) (hip : '{' ∉ ip.data)
    (hport : '{' ∉ port.data) (hname : '{' ∉ name.data) (hts₁ : '{' ∉ ts₁.data)
    (hts₂ : '{' ∉ ts₂.data) :
    generateConfigText cid ip port name ts₁ = generateConfigText cid ip port name ts₂ ↔
      ts₁ = ts₂ := by
  constructor
  · intro heq
    rw [generateConfigText_eq cid ip port name ts₁ hip hport hname hts₁,
      generateConfigText_eq cid ip port name ts₂ hip hport hname hts₂] at heq
    simp only [renderedShape] at heq
    have h1 := List.append_cancel_left heq
    have h2 := List.append_cancel_left h1
    have h3 := List.append_cancel_left h2
    have h4 := List.append_cancel_right h3
    exact String.ext h4
  · intro he
    rw [he]

/-! ### Claim theorems -/

/-- Claim C1, counterexample: the hostname `pwn-101.challenges.ctf.com` is
already enabled for a different instance (config `"old-route"`, link in
place), yet `generate` for a new container with the same challenge name
does not fail — it exits 0 and the stored config is replaced by the new
rendering, which differs from the old one. -/
theorem C1_counterexample :
    (runGenerateCmd true "fff888999000111" "10.0.0.9" "9999" "pwn-101"
        "2025-01-02T00:00:00+00:00"
        ⟨[(availPath (derivedHostname "pwn-101"), "old-route".data)],
         [(enabledPath (derivedHostname "pwn-101"), availPath (derivedHostname "pwn-101"))]⟩).exitCode
      = 0 ∧
    List.lookup (availPath (derivedHostname "pwn-101"))
        ((runGenerateCmd true "fff888999000111" "10.0.0.9" "9999" "pwn-101"
          "2025-01-02T00:00:00+00:00"
          ⟨[(availPath (derivedHostname "pwn-101"), "old-route".data)],
           [(enabledPath (derivedHostname "pwn-101"), availPath (derivedHostname "pwn-101"))]⟩).state.sitesAvailable)
      = some (generateConfigText "fff888999000111" "10.0.0.9" "9999" "pwn-101"
          "2025-01-02T00:00:00+00:00") ∧
    generateConfigText "fff888999000111" "10.0.0.9" "9999" "pwn-101"
        "2025-01-02T00:00:00+00:00" ≠ "old-route".data := by
  refine ⟨rfl, lookup_fsWrite_self _ _ _, ?_⟩
  intro heq
  obtain ⟨r, hr⟩ := renderConfig_starts_hash (derivedHostname "pwn-101").data "10.0.0.9".data
    "9999".data "pwn-101".data "2025-01-02T00:00:00+00:00".data ("fff888999000111".data.take 12)
  rw [generateConfigText] at heq
  rw [hr] at heq
  have hold : "old-route".data = 'o' :: "ld-route".data := by decide
  rw [hold] at heq
  injection heq with h1 _
  exact absurd h1 (by decide)

/-- Claim C1, amended: `generate_for_container` performs no
hostname-conflict check at all.  For every state — in particular one where
the hostname is already enabled for a different instance — it
unconditionally overwrites the config file, re-points the enabling link,
and the `generate` command reports success (exit 0), silently replacing
the existing route. -/
theorem C1_generate_overwrites (nginxValid : Bool)
    (cid ip port name ts : String) (s : NginxState) :
    List.lookup (availPath (derivedHostname name))
        ((runGenerateCmd nginxValid cid ip port name ts s).state.sitesAvailable)
      = some (generateConfigText cid ip port name ts) ∧
    List.lookup (enabledPath (derivedHostname name))
        ((runGenerateCmd nginxValid cid ip port name ts s).state.sitesEnabled)
      = some (availPath (derivedHostname name)) ∧
    (runGenerateCmd nginxValid cid ip port name ts s).exitCode = 0 :=
  ⟨lookup_fsWrite_self _ _ _, lookup_fsWrite_self _ _ _, rfl⟩

/-- Claim C2, counterexample: the hostname derived by the script for
challenge `pwn-101` is `pwn-101.challenges.ctf.com`, which is not of the
spec's shape `<challenge-slug>-<owner-slug>.challenges.<domain>` for owner
`team-a` and domain `ctf.com`. -/
theorem C2_counterexample :
    derivedHostname "pwn-101" = "pwn-101.challenges.ctf.com" ∧
    derivedHostname "pwn-101" ≠ specHostname "pwn-101" "team-a" "ctf.com" :=
  ⟨by decide, by decide⟩

/-- Claim C2, amended: the derived hostname is
`<challenge_name>.challenges.ctf.com` and incorporates no owner slug, so
any two instance descriptors sharing a challenge name — e.g. two owners
running the same challenge — target the same route: publishing the second
overwrites the first under the single shared hostname. -/
theorem C2_hostname_collision (name cid₁ ip₁ port₁ ts₁ cid₂ ip₂ port₂ ts₂ : String)
    (s : NginxState) :
    derivedHostname name = name ++ ".challenges.ctf.com" ∧
    List.lookup (availPath (derivedHostname name))
        ((generate_for_container cid₂ ip₂ port₂ name ts₂
          (generate_for_container cid₁ ip₁ port₁ name ts₁ s)).sitesAvailable)
      = some (generateConfigText cid₂ ip₂ port₂ name ts₂) :=
  ⟨rfl, lookup_fsWrite_self _ _ _⟩

/-- Claim C3, counterexample: two `generate` renderings with identical
container_id, container_ip, container_port and challenge_name but
timestamps one second apart produce different configuration text — the
`# Generated:` header embeds the `date -Iseconds` value taken at each
call. -/
theorem C3_counterexample :
    generateConfigText "abc123def4567" "10.0.0.5" "8080" "pwn-101"
        "2025-01-01T00:00:00+00:00" ≠
      generateConfigText "abc123def4567" "10.0.0.5" "8080" "pwn-101"
        "2025-01-01T00:00:01+00:00" := by
  intro heq
  have h := (generateConfig_ts_eq_iff "abc123def4567" "10.0.0.5" "8080" "pwn-101"
    "2025-01-01T00:00:00+00:00" "2025-01-01T00:00:01+00:00"
    (by decide) (by decide) (by decide) (by decide) (by decide)).mp heq
  exact absurd h (by decide)

/-- Claim C3, amended: rendering is a pure function of the four container
inputs and the invocation timestamp; two renderings with identical
container inputs are byte-identical exactly when their `date -Iseconds`
timestamps coincide (for brace-free inputs). -/
theorem C3_render_deterministic_iff_ts (cid ip port name ts₁ ts₂ : String)
    (hip : '{' ∉ ip.data) (hport : '{' ∉ port.data) (hname : '{' ∉ name.data)
    (hts₁ : '{' ∉ ts₁.data) (hts₂ : '{' ∉ ts₂.data) :
    generateConfigText cid ip port name ts₁ = generateConfigText cid ip port name ts₂ ↔
      ts₁ = ts₂ :=
  generateConfig_ts_eq_iff cid ip port name ts₁ ts₂ hip hport hname hts₁ hts₂

/-- Witness for the amended claim C3 at concrete inputs. -/
theorem C3_render_deterministic_iff_ts_witness :
    generateConfigText "abc123def4567" "10.0.0.5" "8080" "pwn-101"
        "2025-01-01T00:00:00+00:00" =
      generateConfigText "abc123def4567" "10.0.0.5" "8080" "pwn-101"
        "2025-01-01T00:00:00+00:00" ↔
      ("2025-01-01T00:00:00+00:00" : String) = "2025-01-01T00:00:00+00:00" :=
  C3_render_deterministic_iff_ts "abc123def4567" "10.0.0.5" "8080" "pwn-101"
    "2025-01-01T00:00:00+00:00" "2025-01-01T00:00:00+00:00"
    (by decide) (by decide) (by decide) (by decide) (by decide)

/-- Claim C4, counterexample: with `nginx -t` failing after a publish, the
reload is not applied, yet the just-written config file for the
triggering record is still present (no rollback) and the `generate`
command exits 0 (the trailing `echo` masks the failure) — the claim's
rollback and nonzero-exit requirements both fail. -/
theorem C4_counterexample :
    (runGenerateCmd false "abc123def4567" "10.0.0.5" "8080" "pwn-101"
        "2025-01-01T00:00:00+00:00"
        ⟨[(availPath (derivedHostname "other-chal"), "other-config".data)], []⟩).reloaded
      = false ∧
    (runGenerateCmd false "abc123def4567" "10.0.0.5" "8080" "pwn-101"
        "2025-01-01T00:00:00+00:00"
        ⟨[(availPath (derivedHostname "other-chal"), "other-config".data)], []⟩).exitCode
      = 0 ∧
    (List.lookup (availPath (derivedHostname "pwn-101"))
        ((runGenerateCmd false "abc123def4567" "10.0.0.5" "8080" "pwn-101"
          "2025-01-01T00:00:00+00:00"
          ⟨[(availPath (derivedHostname "other-chal"), "other-config".data)], []⟩).state.sitesAvailable)).isSome
      = true ∧
    List.lookup (availPath (derivedHostname "other-chal"))
        ((runGenerateCmd false "abc123def4567" "10.0.0.5" "8080" "pwn-101"
          "2025-01-01T00:00:00+00:00"
          ⟨[(availPath (derivedHostname "other-chal"), "other-config".data)], []⟩).state.sitesAvailable)
      = some ("other-config".data) := by
  refine ⟨rfl, rfl, ?_, ?_⟩
  · rw [show List.lookup (availPath (derivedHostname "pwn-101"))
        ((runGenerateCmd false "abc123def4567" "10.0.0.5" "8080" "pwn-101"
          "2025-01-01T00:00:00+00:00"
          ⟨[(availPath (derivedHostname "other-chal"), "other-config".data)], []⟩).state.sitesAvailable)
        = some (generateConfigText "abc123def4567" "10.0.0.5" "8080" "pwn-101"
          "2025-01-01T00:00:00+00:00") from lookup_fsWrite_self _ _ _]
    rfl
  · rw [show ((runGenerateCmd false "abc123def4567" "10.0.0.5" "8080" "pwn-101"
        "2025-01-01T00:00:00+00:00"
        ⟨[(availPath (derivedHostname "other-chal"), "other-config".data)], []⟩).state.sitesAvailable)
        = fsWrite (availPath (derivedHostname "pwn-101"))
            (generateConfigText "abc123def4567" "10.0.0.5" "8080" "pwn-101"
              "2025-01-01T00:00:00+00:00")
            [(availPath (derivedHostname "other-chal"), "other-config".data)] from rfl]
    rw [lookup_fsWrite_ne _ _ _ _ (by decide)]
    simp [List.lookup]

/-- Claim C4, amended: `reload_nginx` does validate before applying (the
reload runs only when `nginx -t` succeeds), and records for other
hostnames are untouched; but on validation failure the just-written files
for the triggering record are NOT rolled back, and `generate` exits 0
rather than nonzero, because the script's status is that of the trailing
`echo`. -/
theorem C4_no_rollback_exit_zero (nginxValid : Bool) (cid ip port name ts : String)
    (s : NginxState) :
    (runGenerateCmd nginxValid cid ip port name ts s).reloaded = nginxValid ∧
    (runGenerateCmd nginxValid cid ip port name ts s).exitCode = 0 ∧
    List.lookup (availPath (derivedHostname name))
        ((runGenerateCmd nginxValid cid ip port name ts s).state.sitesAvailable)
      = some (generateConfigText cid ip port name ts) ∧
    (∀ k, k ≠ availPath (derivedHostname name) →
      List.lookup k ((runGenerateCmd nginxValid cid ip port name ts s).state.sitesAvailable)
        = List.lookup k s.sitesAvailable) ∧
    (∀ k, k ≠ enabledPath (derivedHostname name) →
      List.lookup k ((runGenerateCmd nginxValid cid ip port name ts s).state.sitesEnabled)
        = List.lookup k s.sitesEnabled) := by
  refine ⟨rfl, rfl, lookup_fsWrite_self _ _ _, ?_, ?_⟩
  · intro k hk
    exact lookup_fsWrite_ne _ _ _ _ hk
  · intro k hk
    exact lookup_fsWrite_ne _ _ _ _ hk

/-- Witness for the amended claim C4: frame conditions instantiated at a
concrete other-record key. -/
theorem C4_no_rollback_exit_zero_witness :
    List.lookup (availPath (derivedHostname "other-chal"))
        ((runGenerateCmd false "abc123def4567" "10.0.0.5" "8080" "pwn-101"
          "2025-01-01T00:00:00+00:00" ⟨[], []⟩).state.sitesAvailable)
      = List.lookup (availPath (derivedHostname "other-chal"))
          (NginxState.mk [] []).sitesAvailable :=
  (C4_no_rollback_exit_zero false "abc123def4567" "10.0.0.5" "8080" "pwn-101"
    "2025-01-01T00:00:00+00:00" ⟨[], []⟩).2.2.2.1
    (availPath (derivedHostname "other-chal")) (by decide)

/-- Claim C5: evaluation of the code at the failing input — `sync` with
one running labeled container and an empty proxy state prints its two
messages, publishes nothing (its reconciliation body is commented out),
leaves the state unchanged, and exits 0. -/
theorem C5_sync_stub :
    sync_all_containers [("abc123def4567", "10.0.0.5", "8080", "pwn-101")] ⟨[], []⟩
      = (⟨[], []⟩, 0) ∧
    (sync_all_containers [("abc123def4567", "10.0.0.5", "8080", "pwn-101")]
        ⟨[], []⟩).1.sitesAvailable = [] :=
  ⟨rfl, rfl⟩

/-- Claim C6: evaluation of the code at the failing input — a `start`
event for container `abc123` is a no-op because `get_container_info` is a
stub returning the empty string: the state is unchanged, zero reloads are
triggered, and no config file for `pwn-101.challenges.ctf.com` exists. -/
theorem C6_start_event_noop :
    handle_container_event "start" "abc123" "2025-01-01T00:00:00+00:00" ⟨[], []⟩
      = (⟨[], []⟩, 0) ∧
    List.lookup (availPath (derivedHostname "pwn-101"))
        (NginxState.mk [] []).sitesAvailable = none := by
  constructor
  · simp [handle_container_event, get_container_info]
  · rfl

/-- Claim C8, counterexample: a raw keystroke `"ls"` on an open socket is
sent by the `onData` handler as a TEXT frame (the terminal's string is
passed to `ws.send` unchanged) — not as a binary frame as the claim
states. -/
theorem C8_counterexample :
    sendTerminalInput true "ls" = some (Frame.text "ls") ∧
    ¬ ∃ bytes, sendTerminalInput true "ls" = some (Frame.binary bytes) := by
  refine ⟨rfl, ?_⟩
  rintro ⟨bytes, hb⟩
  simp [sendTerminalInput] at hb

/-- Claim C8, amended: client→server raw keystrokes travel as text frames
(sent only while the socket is open), resize control messages as JSON
text frames `{type:"resize",cols,rows}`; server→client binary frames are
written to the terminal as raw container output, parsed text frames with
`type:"error"` are displayed as errors, and unparseable text frames are
written verbatim. -/
theorem C8_frame_kinds :
    (∀ d, sendTerminalInput true d = some (Frame.text d)) ∧
    (∀ d, sendTerminalInput false d = none) ∧
    (∀ cols rows, sendResize cols rows = Frame.text (resizeMessage cols rows)) ∧
    (∀ parse bytes, handleServerFrame parse (Frame.binary bytes)
      = ClientAction.writeBytes bytes) ∧
    (∀ parse s m, parse s = some m → m.type = "error" →
      handleServerFrame parse (Frame.text s) = ClientAction.writeError m.message) ∧
    (∀ parse s, parse s = none → handleServerFrame parse (Frame.text s)
      = ClientAction.writeRaw s) := by
  refine ⟨fun d => rfl, fun d => rfl, fun cols rows => rfl, fun parse bytes => rfl, ?_, ?_⟩
  · intro parse s m hm ht
    simp [handleServerFrame, hm, ht]
  · intro parse s hn
    simp [handleServerFrame, hn]

/-- Witness for the amended claim C8 at a concrete parse outcome. -/
theorem C8_frame_kinds_witness :
    handleServerFrame (fun _ => some ⟨"error", "boom"⟩) (Frame.text "x")
      = ClientAction.writeError "boom" :=
  C8_frame_kinds.2.2.2.2.1 (fun _ => some ⟨"error", "boom"⟩) "x" ⟨"error", "boom"⟩ rfl rfl

/-- Claim C9, counterexample: the challenge name `x{timestamp}` makes the
derived hostname contain the template-breaking character `'{'`, yet the
renderer does not reject it — a configuration (beginning with the
template's comment header) is produced. -/
theorem C9_counterexample :
    '{' ∈ (derivedHostname "x{timestamp}").data ∧
    ∃ r, generateConfigText "abc123def4567" "10.0.0.5" "8080" "x{timestamp}"
        "2025-01-01T00:00:00+00:00" = '#' :: r :=
  ⟨by decide, renderConfig_starts_hash _ _ _ _ _ _⟩

/-- Claim C9, amended: the renderer performs no input validation at all:
for every input — template-breaking characters in the hostname included —
the raw value is substituted into the template and a configuration
beginning with the template's comment header is produced; there is no
rejection path. -/
theorem C9_renderer_never_rejects (cid ip port name ts : String) :
    ∃ r, generateConfigText cid ip port name ts = '#' :: r :=
  renderConfig_starts_hash _ _ _ _ _ _

/-- Claim C7: for every generate invocation (with brace-free inputs, as
required for the placeholder substitution to be well formed), the rendered
configuration contains, in its `location /` block, a
`proxy_pass http://{ip}:{port}/;` directive; forwards the `Upgrade` and
`Connection` headers; exposes `/health` returning `200 "healthy\n"` with
`access_log off`; writes access and error logs to per-hostname files under
`/var/log/nginx/challenges`; and stamps the container id truncated to its
first 12 characters into the `# Container:` header. -/
theorem C7_render_contract (cid ip port name ts : String) (hip : '{' ∉ ip.data)
    (hport : '{' ∉ port.data) (hname : '{' ∉ name.data) (hts : '{' ∉ ts.data) :
    List.IsInfix
      ("location / \x7b\n        proxy_pass http://".data ++
        (ip.data ++ (":".data ++ (port.data ++ "/;".data))))
      (generateConfigText cid ip port name ts) ∧
    List.IsInfix
      "proxy_set_header Upgrade $http_upgrade;\n        proxy_set_header Connection \"upgrade\";".data
      (generateConfigText cid ip port name ts) ∧
    List.IsInfix
      "location /health \x7b\n        access_log off;\n        return 200 \"healthy\\n\";".data
      (generateConfigText cid ip port name ts) ∧
    List.IsInfix
      ("access_log /var/log/nginx/challenges/".data ++
        ((derivedHostname name).data ++ "_access.log;".data))
      (generateConfigText cid ip port name ts) ∧
    List.IsInfix
      ("error_log /var/log/nginx/challenges/".data ++
        ((derivedHostname name).data ++ "_error.log;".data))
      (generateConfigText cid ip port name ts) ∧
    List.IsInfix ("# Container: ".data ++ cid.data.take 12)
      (generateConfigText cid ip port name ts) := by
  have e := generateConfigText_eq cid ip port name ts hip hport hname hts
  refine ⟨?_, ?_, ?_, ?_, ?_, ?_⟩
  · exact infix_intro
      (p01.data ++ (name.data ++ (p02.data ++ (ts.data ++ (p03a.data ++ (p03b.data ++ (cid.data.take 12 ++ (p04.data ++ ((derivedHostname name).data ++ (p05.data))))))))))
      (p08b.data ++ (p09.data ++ (p10.data ++ (p11.data ++ (p12.data ++ (p13.data ++ ((derivedHostname name).data ++ (p14a.data ++ (p14b.data ++ (p15.data ++ ((derivedHostname name).data ++ (p16a.data ++ (p16b.data)))))))))))))
      _ _ (by rw [e]; simp only [renderedShape, p06, p07, p08a, List.append_assoc])
  · exact infix_intro
      (p01.data ++ (name.data ++ (p02.data ++ (ts.data ++ (p03a.data ++ (p03b.data ++ (cid.data.take 12 ++ (p04.data ++ ((derivedHostname name).data ++ (p05.data ++ (p06.data ++ (ip.data ++ (p07.data ++ (port.data ++ (p08a.data ++ (p08b.data))))))))))))))))
      (p10.data ++ (p11.data ++ (p12.data ++ (p13.data ++ ((derivedHostname name).data ++ (p14a.data ++ (p14b.data ++ (p15.data ++ ((derivedHostname name).data ++ (p16a.data ++ (p16b.data)))))))))))
      _ _ (by rw [e]; simp only [renderedShape, p09, List.append_assoc])
  · exact infix_intro
      (p01.data ++ (name.data ++ (p02.data ++ (ts.data ++ (p03a.data ++ (p03b.data ++ (cid.data.take 12 ++ (p04.data ++ ((derivedHostname name).data ++ (p05.data ++ (p06.data ++ (ip.data ++ (p07.data ++ (port.data ++ (p08a.data ++ (p08b.data ++ (p09.data ++ (p10.data))))))))))))))))))
      (p12.data ++ (p13.data ++ ((derivedHostname name).data ++ (p14a.data ++ (p14b.data ++ (p15.data ++ ((derivedHostname name).data ++ (p16a.data ++ (p16b.data)))))))))
      _ _ (by rw [e]; simp only [renderedShape, p11, List.append_assoc])
  · exact infix_intro
      (p01.data ++ (name.data ++ (p02.data ++ (ts.data ++ (p03a.data ++ (p03b.data ++ (cid.data.take 12 ++ (p04.data ++ ((derivedHostname name).data ++ (p05.data ++ (p06.data ++ (ip.data ++ (p07.data ++ (port.data ++ (p08a.data ++ (p08b.data ++ (p09.data ++ (p10.data ++ (p11.data ++ (p12.data))))))))))))))))))))
      (p14b.data ++ (p15.data ++ ((derivedHostname name).data ++ (p16a.data ++ (p16b.data)))))
      _ _ (by rw [e]; simp only [renderedShape, p13, p14a, List.append_assoc])
  · exact infix_intro
      (p01.data ++ (name.data ++ (p02.data ++ (ts.data ++ (p03a.data ++ (p03b.data ++ (cid.data.take 12 ++ (p04.data ++ ((derivedHostname name).data ++ (p05.data ++ (p06.data ++ (ip.data ++ (p07.data ++ (port.data ++ (p08a.data ++ (p08b.data ++ (p09.data ++ (p10.data ++ (p11.data ++ (p12.data ++ (p13.data ++ ((derivedHostname name).data ++ (p14a.data ++ (p14b.data))))))))))))))))))))))))
      (p16b.data)
      _ _ (by rw [e]; simp only [renderedShape, p15, p16a, List.append_assoc])
  · exact infix_intro
      (p01.data ++ (name.data ++ (p02.data ++ (ts.data ++ (p03a.data)))))
      (p04.data ++ ((derivedHostname name).data ++ (p05.data ++ (p06.data ++ (ip.data ++ (p07.data ++ (port.data ++ (p08a.data ++ (p08b.data ++ (p09.data ++ (p10.data ++ (p11.data ++ (p12.data ++ (p13.data ++ ((derivedHostname name).data ++ (p14a.data ++ (p14b.data ++ (p15.data ++ ((derivedHostname name).data ++ (p16a.data ++ (p16b.data)))))))))))))))))))))
      _ _ (by rw [e]; simp only [renderedShape, p03b, List.append_assoc])

/-- Witness for claim C7 at concrete inputs (first conjunct: the proxy
directive for 10.0.0.5:8080). -/
theorem C7_render_contract_witness :
    List.IsInfix
      ("location / \x7b\n        proxy_pass http://".data ++
        ("10.0.0.5".data ++ (":".data ++ ("8080".data ++ "/;".data))))
      (generateConfigText "abc123def456789" "10.0.0.5" "8080" "pwn-101"
        "2025-01-01T00:00:00+00:00") :=
  (C7_render_contract "abc123def456789" "10.0.0.5" "8080" "pwn-101"
    "2025-01-01T00:00:00+00:00" (by decide) (by decide) (by decide) (by decide)).1

/-- Claim C10: every invocation of the script — whatever the command —
first performs the four `mkdir -p` calls of `ensure_directories` and the
template overwrite of `create_template`, in that order, before the
command is dispatched; the template write is not exclusive to `init`. -/
theorem C10_init_before_dispatch (ts : String) (cmd : ScriptCmd) :
    (main_trace ts cmd).take 5 =
      [Effect.mkdirP NGINX_SITES_AVAILABLE, Effect.mkdirP NGINX_SITES_ENABLED,
       Effect.mkdirP LOG_DIR, Effect.mkdirP "/etc/nginx/templates",
       Effect.writeFile TEMPLATE_FILE templateText] ∧
    Effect.writeFile TEMPLATE_FILE templateText ∈ main_trace ts cmd ∧
    main_trace ts cmd =
      (ensure_directories_trace ++ create_template_trace) ++ dispatch_trace ts cmd := by
  refine ⟨?_, ?_, ?_⟩
  · cases cmd <;> rfl
  · cases cmd <;>
      simp [main_trace, ensure_directories_trace, create_template_trace, dispatch_trace]
  · simp [main_trace]

end Cerb
